import Mathlib

/-!
Shallow embedding of the tiny-artnet Art-Net 4 codec (src/lib.rs and
src/poll_reply.rs) and verification of its specification claims.

Bytes are modelled as `Nat` values (< 256 for wire data).  Byte buffers are
`List Nat`.  nom-style sub-parsers return `Option (List Nat × α)`:
`none` models a nom parse error, `some (rest, v)` models success with the
unconsumed remainder `rest`.  The top-level fallible functions return
`PResult α`, which distinguishes success, a returned `Error` value, and a
Rust panic (out-of-bounds slice indexing), so that unchecked indexing in the
source is modelled faithfully rather than silently converted to an error.
-/

namespace TinyArtnet

/-- `const ID: &[u8] = b"Art-Net\0";` (src/lib.rs line 33). -/
def ID : List Nat := [65, 114, 116, 45, 78, 101, 116, 0]

/-- `pub enum Error` (src/lib.rs lines 49-53).  The nom error payload is
collapsed to a unit: the code wraps every nom error into `ParserError`. -/
inductive ArtError where
  | UnsupportedProtocolVersion : Nat → ArtError
  | UnsupportedOpCode : Nat → ArtError
  | ParserError : ArtError
deriving DecidableEq

/-- Outcome of a fallible Rust function: `ok` models `Ok`, `fail` models
`Err`, and `panic` models a Rust panic (used for the unchecked
`&s[..length]` slice indexing in `parse_command` / `parse_dmx`). -/
inductive PResult (α : Type) where
  | ok : α → PResult α
  | fail : ArtError → PResult α
  | panic : PResult α
deriving DecidableEq

/-- Functorial map on `PResult`, used for the `Art::X(...)` wrapping in
`from_slice`. -/
def PResult.map {α β : Type} (f : α → β) : PResult α → PResult β
  | PResult.ok a => PResult.ok (f a)
  | PResult.fail e => PResult.fail e
  | PResult.panic => PResult.panic

/-- nom `bytes::complete::tag(t)`: succeeds returning the remainder iff the
input starts with `t`, fails otherwise (also when the input is shorter). -/
def takeTag : List Nat → List Nat → Option (List Nat)
  | [], s => some s
  | _ :: _, [] => none
  | t :: ts, b :: bs => if b = t then takeTag ts bs else none

/-- nom `number::complete::u8`: one byte. -/
def u8 : List Nat → Option (List Nat × Nat)
  | [] => none
  | b :: rest => some (rest, b)

/-- nom `number::complete::le_u16`: two bytes, little-endian. -/
def le_u16 : List Nat → Option (List Nat × Nat)
  | b0 :: b1 :: rest => some (rest, b0 + 256 * b1)
  | _ => none

/-- nom `number::complete::be_u16`: two bytes, big-endian. -/
def be_u16 : List Nat → Option (List Nat × Nat)
  | b0 :: b1 :: rest => some (rest, 256 * b0 + b1)
  | _ => none

/-- `pub struct PortAddress` (src/lib.rs lines 107-111). -/
structure PortAddress where
  net : Nat
  sub_net : Nat
  «universe» : Nat
deriving DecidableEq

/-- `fn parse_port_address` (src/lib.rs lines 113-132).  nom's bit-level
`take` reads bits most-significant-first, so on byte 0 the first
`take(4usize)` (bound to `sub_net`) yields the high nibble and the second
(bound to `universe`) the low nibble; on byte 1 `take(1usize)` consumes the
top bit (discarded) and `take(7usize)` (bound to `net`) the low 7 bits.
The `% 16` / `% 128` keep the extraction total on `Nat`; for genuine byte
values (< 256) they change nothing. -/
def parse_port_address : List Nat → Option (List Nat × PortAddress)
  | b0 :: b1 :: rest =>
      some (rest, PortAddress.mk (b1 % 128) (b0 / 16 % 16) (b0 % 16))
  | _ => none

/-- `PortAddress::as_index` (src/lib.rs lines 134-139):
`(self.net as usize >> 14) + (self.sub_net as usize >> 7) + (self.universe as usize)`. -/
def PortAddress.as_index (pa : PortAddress) : Nat :=
  (pa.net >>> 14) + (pa.sub_net >>> 7) + pa.«universe»

/-- `fn put_padded_str::<N>` (src/lib.rs lines 142-157): truncate the input
to at most `N - 1` bytes, then pad with NULs to exactly `N` bytes (the
local `[0; N]` array that the truncated bytes are copied into). -/
def put_padded_str (N : Nat) (input : List Nat) : List Nat :=
  let truncated := if N - 1 < input.length then input.take (N - 1) else input
  truncated ++ List.replicate (N - truncated.length) 0

/-- `pub struct Poll` (src/lib.rs lines 160-164).  The
`RangeInclusive<u16>` field `target_port_addresses` is modelled by its two
endpoints `target_top ..= target_bottom`. -/
structure Poll where
  flags : Nat
  min_diagnostic_priority : Nat
  target_top : Nat
  target_bottom : Nat
deriving DecidableEq

/-- `fn parse_poll` (src/lib.rs lines 166-184).  Note the condition for
reading the optional bounds is `!s.is_empty()`: at least ONE remaining
byte, after which each `be_u16` can still fail. -/
def parse_poll (s : List Nat) : PResult Poll :=
  match u8 s with
  | none => PResult.fail ArtError.ParserError
  | some (s1, flags) =>
    match u8 s1 with
    | none => PResult.fail ArtError.ParserError
    | some (s2, mdp) =>
      if s2 ≠ [] then
        match be_u16 s2 with
        | none => PResult.fail ArtError.ParserError
        | some (s3, top) =>
          match be_u16 s3 with
          | none => PResult.fail ArtError.ParserError
          | some (_, bottom) => PResult.ok (Poll.mk flags mdp top bottom)
      else
        PResult.ok (Poll.mk flags mdp 0 65535)

/-- `fn parse_esta_manufacturer_code` (src/lib.rs lines 87-90): two raw
bytes, returned as the (lo, hi) pair (`char` values modelled by their byte
codes). -/
def parse_esta_manufacturer_code : List Nat → Option (List Nat × (Nat × Nat))
  | lo :: hi :: rest => some (rest, (lo, hi))
  | _ => none

/-- `pub struct Command` (src/lib.rs lines 187-190). -/
structure Command where
  esta_lo : Nat
  esta_hi : Nat
  data : List Nat
deriving DecidableEq

/-- `fn parse_command` (src/lib.rs lines 192-202).  The source computes
`let data = &s[..length as usize];` with NO bounds check: Rust slice
indexing panics when `length > s.len()`, which the embedding renders as
`PResult.panic`. -/
def parse_command (s : List Nat) : PResult Command :=
  match parse_esta_manufacturer_code s with
  | none => PResult.fail ArtError.ParserError
  | some (s1, code) =>
    match le_u16 s1 with
    | none => PResult.fail ArtError.ParserError
    | some (s2, length) =>
      if length ≤ s2.length then
        PResult.ok (Command.mk code.1 code.2 (s2.take length))
      else
        PResult.panic

/-- `pub struct Dmx` (src/lib.rs lines 205-234). -/
structure Dmx where
  sequence : Nat
  physical : Nat
  port_address : PortAddress
  data : List Nat
deriving DecidableEq

/-- `fn parse_dmx` (src/lib.rs lines 236-251).  Same unchecked
`&s[..length as usize]` slice as `parse_command`. -/
def parse_dmx (s : List Nat) : PResult Dmx :=
  match u8 s with
  | none => PResult.fail ArtError.ParserError
  | some (s1, sequence) =>
    match u8 s1 with
    | none => PResult.fail ArtError.ParserError
    | some (s2, physical) =>
      match parse_port_address s2 with
      | none => PResult.fail ArtError.ParserError
      | some (s3, port_address) =>
        match be_u16 s3 with
        | none => PResult.fail ArtError.ParserError
        | some (s4, length) =>
          if length ≤ s4.length then
            PResult.ok (Dmx.mk sequence physical port_address (s4.take length))
          else
            PResult.panic

/-- `fn parse_sync` (src/lib.rs lines 253-258): two bytes consumed and
discarded. -/
def parse_sync (s : List Nat) : PResult Unit :=
  match u8 s with
  | none => PResult.fail ArtError.ParserError
  | some (s1, _) =>
    match u8 s1 with
    | none => PResult.fail ArtError.ParserError
    | some (_, _) => PResult.ok ()

/-- `pub enum Art` (src/lib.rs lines 40-46). -/
inductive Art where
  | Poll : Poll → Art
  | Command : Command → Art
  | Dmx : Dmx → Art
  | Sync : Art
deriving DecidableEq

/-- `pub fn from_slice` (src/lib.rs lines 61-82): magic tag, little-endian
opcode, big-endian protocol version (rejected when > 14, before opcode
dispatch), then dispatch on the opcode value.  The Rust `match op_code`
over integer literals is rendered as the equivalent chain of equality
tests. -/
def from_slice (s : List Nat) : PResult Art :=
  match takeTag ID s with
  | none => PResult.fail ArtError.ParserError
  | some s1 =>
    match le_u16 s1 with
    | none => PResult.fail ArtError.ParserError
    | some (s2, op_code) =>
      match be_u16 s2 with
      | none => PResult.fail ArtError.ParserError
      | some (s3, protocol_version) =>
        if 14 < protocol_version then
          PResult.fail (ArtError.UnsupportedProtocolVersion protocol_version)
        else if op_code = 0x2000 then
          PResult.map Art.Poll (parse_poll s3)
        else if op_code = 0x2400 then
          PResult.map Art.Command (parse_command s3)
        else if op_code = 0x5000 then
          PResult.map Art.Dmx (parse_dmx s3)
        else if op_code = 0x5200 then
          PResult.map (fun _ => Art.Sync) (parse_sync s3)
        else
          PResult.fail (ArtError.UnsupportedOpCode op_code)

/-- State of a `BufMut` over a caller-supplied `&mut [u8]`: the bytes
written so far and the remaining capacity. -/
structure WBuf where
  written : List Nat
  cap : Nat
deriving DecidableEq

/-- `BufMut::put_slice` on a `&mut [u8]`: appends the bytes, panicking
(`none`) when the remaining capacity is insufficient. -/
def putSlice (b : WBuf) (xs : List Nat) : Option WBuf :=
  if xs.length ≤ b.cap then some (WBuf.mk (b.written ++ xs) (b.cap - xs.length)) else none

/-- Bytes written by `BufMut::put_u16_le` (little-endian `u16`). -/
def u16LEBytes (x : Nat) : List Nat := [x % 256, x / 256 % 256]

/-- Bytes written by `BufMut::put_u16` (big-endian `u16`). -/
def u16BEBytes (x : Nat) : List Nat := [x / 256 % 256, x % 256]

/-- `const OP_POLL_REPLY: u16 = 0x2100;` (src/poll_reply.rs line 5). -/
def OP_POLL_REPLY : Nat := 0x2100

/-- `pub struct PollReply` (src/poll_reply.rs lines 8-68).  Fixed-size
array fields (`&[u8; N]`) are modelled as `List Nat` together with length
hypotheses in the theorems; `u8` / `u16` fields as `Nat`.  The source field
`sw_macro` is rendered as `sw_m` and `sw_remote` as `sw_r` (the original
names are kept everywhere Lean and the development conventions allow). -/
structure PollReply where
  ip_address : List Nat
  port : Nat
  firmware_version : Nat
  net_switch : Nat
  sub_switch : Nat
  oem : Nat
  ubea_version : Nat
  status1 : Nat
  esta_lo : Nat
  esta_hi : Nat
  short_name : List Nat
  long_name : List Nat
  node_report : List Nat
  num_ports : Nat
  port_types : List Nat
  good_input : List Nat
  good_output_a : List Nat
  swin : List Nat
  swout : List Nat
  acn_priority : Nat
  sw_m : Nat
  sw_r : Nat
  style : Nat
  mac_address : List Nat
  bind_ip_address : List Nat
  bind_index : Nat
  status2 : Nat
  good_output_b : List Nat
  status3 : Nat
  default_responder_uid : List Nat
deriving DecidableEq

/-- The byte segments written, in order, by `PollReply::serialize`
(src/poll_reply.rs lines 110-152): one list entry per `put_*` call in the
source (`put_u8 x` writes `[x]`, `put_u16_le` / `put_u16` write their
2-byte encodings, `put_esta_manufacturer_code` writes the two code bytes,
`put_padded_str::<N>` writes its `N`-byte padded array, and the spare /
filler writes are 3 and 15 zero bytes). -/
def PollReply.segments (r : PollReply) : List (List Nat) :=
  [ ID,
    u16LEBytes OP_POLL_REPLY,
    r.ip_address,
    u16LEBytes r.port,
    u16BEBytes r.firmware_version,
    [r.net_switch],
    [r.sub_switch],
    u16BEBytes r.oem,
    [r.ubea_version],
    [r.status1],
    [r.esta_lo],
    [r.esta_hi],
    put_padded_str 18 r.short_name,
    put_padded_str 64 r.long_name,
    put_padded_str 64 r.node_report,
    u16BEBytes r.num_ports,
    r.port_types,
    r.good_input,
    r.good_output_a,
    r.swin,
    r.swout,
    [r.acn_priority],
    [r.sw_m],
    [r.sw_r],
    List.replicate 3 0,
    [r.style],
    r.mac_address,
    r.bind_ip_address,
    [r.bind_index],
    [r.status2],
    r.good_output_b,
    [r.status3],
    r.default_responder_uid,
    List.replicate 15 0 ]

/-- The full byte sequence written by `PollReply::serialize`. -/
def PollReply.serializeBytes (r : PollReply) : List Nat :=
  (PollReply.segments r).flatten

/-- `PollReply::serialize` (src/poll_reply.rs lines 110-152) against a
destination buffer of length `bufLen`: performs the sequence of `put`
calls (panicking, i.e. `none`, if any overruns the buffer) and returns the
written bytes together with the return value
`initial_buf_len - buf.len()`. -/
def PollReply.serialize (r : PollReply) (bufLen : Nat) : Option (List Nat × Nat) :=
  match List.foldlM putSlice (WBuf.mk [] bufLen) (PollReply.segments r) with
  | none => none
  | some b => some (b.written, bufLen - b.cap)

/-- Re-reading helper: the `n` bytes of `bs` starting at offset `off`. -/
def slice (bs : List Nat) (off n : Nat) : List Nat :=
  (bs.drop off).take n

/-- Re-reading helper: the byte of `bs` at offset `off`. -/
def readU8 (bs : List Nat) (off : Nat) : Nat :=
  (bs.drop off).getD 0 0

/-- Re-reading helper: little-endian 16-bit value at offset `off`. -/
def readLE16 (bs : List Nat) (off : Nat) : Nat :=
  (bs.drop off).getD 0 0 + 256 * (bs.drop off).getD 1 0

/-- Re-reading helper: big-endian 16-bit value at offset `off`. -/
def readBE16 (bs : List Nat) (off : Nat) : Nat :=
  256 * (bs.drop off).getD 0 0 + (bs.drop off).getD 1 0

/-- A concrete `PollReply` used to instantiate theorems with hypotheses. -/
def pr0 : PollReply :=
  PollReply.mk [10, 0, 0, 7] 0x1936 0x0102 3 4 0x4321 5 0b11000000 65 97
    [72, 105] [] [76, 111, 110, 103] 2 [9, 8, 7, 6] [1, 1, 1, 1] [2, 2, 2, 2]
    [3, 3, 3, 3] [4, 4, 4, 4] 10 11 12 13 [1, 2, 3, 4, 5, 6] [9, 8, 7, 6] 14
    15 [5, 5, 5, 5] 16 [6, 5, 4, 3, 2, 1]

/-! ## Helper lemmas -/

/-- nom `tag` succeeds on any input that starts with the tag. -/
theorem takeTag_append (t s : List Nat) : takeTag t (t ++ s) = some s := by
  induction t with
  | nil => rfl
  | cons a ts ih => simp [takeTag, ih]

/-- nom `tag` fails exactly when the input does not start with the tag. -/
theorem takeTag_eq_none_iff (t s : List Nat) :
    takeTag t s = none ↔ s.take t.length ≠ t := by
  induction t generalizing s with
  | nil => simp [takeTag]
  | cons a ts ih =>
    cases s with
    | nil => simp [takeTag]
    | cons b bs =>
      by_cases hb : b = a
      · subst hb
        simp [takeTag, ih bs]
      · simp [takeTag, hb]

/-- Stepping lemma for reading a serialized buffer: dropping past a
segment of known length exposes the rest. -/
theorem drop_step {bs seg rest : List Nat} {k m : Nat}
    (hk : bs.drop k = seg ++ rest) (hm : seg.length = m) :
    bs.drop (k + m) = rest := by
  rw [← List.drop_drop m k bs, hk, List.drop_left' hm]

/-- Reading a whole segment of known length at its offset. -/
theorem slice_get {bs seg rest : List Nat} {off n : Nat}
    (h : bs.drop off = seg ++ rest) (hn : seg.length = n) :
    slice bs off n = seg := by
  rw [slice, h, List.take_left' hn]

/-- Reading one byte at its offset. -/
theorem readU8_get {bs rest : List Nat} {off v : Nat}
    (h : bs.drop off = v :: rest) : readU8 bs off = v := by
  rw [readU8, h]
  rfl

/-- Re-reading a little-endian 16-bit field yields the encoded value. -/
theorem readLE16_get {bs rest : List Nat} {off x : Nat}
    (h : bs.drop off = u16LEBytes x ++ rest) (hx : x < 65536) :
    readLE16 bs off = x := by
  rw [readLE16, h]
  simp only [u16LEBytes, List.cons_append, List.nil_append,
    List.getD_cons_zero, List.getD_cons_succ]
  omega

/-- Re-reading a big-endian 16-bit field yields the encoded value. -/
theorem readBE16_get {bs rest : List Nat} {off x : Nat}
    (h : bs.drop off = u16BEBytes x ++ rest) (hx : x < 65536) :
    readBE16 bs off = x := by
  rw [readBE16, h]
  simp only [u16BEBytes, List.cons_append, List.nil_append,
    List.getD_cons_zero, List.getD_cons_succ]
  omega

theorem len_ID : ID.length = 8 := rfl

theorem len_u16LE (x : Nat) : (u16LEBytes x).length = 2 := rfl

theorem len_u16BE (x : Nat) : (u16BEBytes x).length = 2 := rfl

theorem len_single (x : Nat) : ([x] : List Nat).length = 1 := rfl

theorem len_rep3 : (List.replicate 3 (0 : Nat)).length = 3 := rfl

theorem len_rep15 : (List.replicate 15 (0 : Nat)).length = 15 := rfl

/-- `put_padded_str` always produces exactly `N` bytes. -/
theorem put_padded_str_length (N : Nat) (input : List Nat) :
    (put_padded_str N input).length = N := by
  simp only [put_padded_str]
  by_cases h : N - 1 < input.length
  · simp [h, List.length_take]
  · simp [h]
    omega

/-- Closed form of `put_padded_str`: the first `min len (N-1)` input bytes
followed by NUL padding up to `N`. -/
theorem put_padded_str_eq (N : Nat) (input : List Nat) :
    put_padded_str N input =
      input.take (min input.length (N - 1)) ++
        List.replicate (N - min input.length (N - 1)) 0 := by
  simp only [put_padded_str]
  rcases Nat.lt_or_ge (N - 1) input.length with h | h
  · rw [if_pos h]
    have hm : min input.length (N - 1) = N - 1 := by omega
    have h2 : (input.take (N - 1)).length = N - 1 := by
      rw [List.length_take]; omega
    rw [hm, h2]
  · rw [if_neg (by omega)]
    have hm : min input.length (N - 1) = input.length := by omega
    rw [hm, List.take_length]

/-- Every entry of a zero-filled list reads back as zero. -/
theorem getD_replicate_zero (n j : Nat) :
    (List.replicate n (0 : Nat)).getD j 0 = 0 := by
  induction n generalizing j with
  | zero => simp [List.getD]
  | succ n ih =>
    cases j with
    | zero => simp [List.replicate]
    | succ j =>
      rw [List.replicate_succ, List.getD_cons_succ]
      exact ih j

/-! ## Claim theorems -/

/-- Claim C1 (code_bug): the claim requires a hard parse failure whenever
the declared Command/Dmx payload length exceeds the remaining bytes, but
the code slices unchecked: on a Command packet declaring length 5 with 0
remaining bytes and on a Dmx packet declaring length 2 with 1 remaining
byte, decoding panics (out-of-bounds slice) instead of returning a parse
failure. -/
theorem command_dmx_oob_slice_panics :
    from_slice (ID ++ [0x00, 0x24] ++ [0x00, 0x0E] ++ [0x41, 0x42, 0x05, 0x00]) =
        PResult.panic ∧
      from_slice (ID ++ [0x00, 0x50] ++ [0x00, 0x0E] ++
          [0x01, 0x00, 0x00, 0x00, 0x00, 0x02, 0xFF]) =
        PResult.panic := by
  exact ⟨rfl, rfl⟩

/-- Claim C2 (counterexample): decoding the two bytes `[0x34, 0x12]` does
NOT yield sub_net = 4 and universe = 3 as claimed; it yields sub_net = 3
(the HIGH nibble of byte 0) and universe = 4 (the LOW nibble), with
net = 18. -/
theorem port_address_nibble_counterexample :
    parse_port_address [0x34, 0x12] = some ([], PortAddress.mk 18 3 4) ∧
      parse_port_address [0x34, 0x12] ≠ some ([], PortAddress.mk 18 4 3) := by
  exact ⟨rfl, by decide⟩

/-- Claim C2 (amended): the bit-field codec extracts sub_net from the HIGH
nibble of byte 0, universe from the LOW nibble of byte 0, and net from the
low 7 bits of byte 1; so `[0x34, 0x12]` yields sub_net = 3, universe = 4,
net = 18, and `[0x00, 0x00]` yields all-zero fields. -/
theorem port_address_decode_eq (b0 b1 : Nat) (rest : List Nat)
    (h0 : b0 < 256) (h1 : b1 < 256) :
    parse_port_address (b0 :: b1 :: rest) =
      some (rest, PortAddress.mk (b1 % 128) (b0 / 16) (b0 % 16)) := by
  have hd : b0 / 16 % 16 = b0 / 16 := by omega
  simp [parse_port_address, hd]

theorem port_address_decode_eq_witness :
    (0x34 : Nat) < 256 ∧
      parse_port_address [0x34, 0x12] = some ([], PortAddress.mk 18 3 4) := by
  refine ⟨by decide, ?_⟩
  rw [port_address_decode_eq 0x34 0x12 [] (by decide) (by decide)]

/-- Claim C3 (counterexample): on the Poll payload `[0x01, 0x02, 0x00]`
(flags = 1, priority = 2, a single leftover byte, i.e. fewer than 4
remaining bytes) the claim predicts a successful parse with the default
target range, but the code attempts to read the bounds whenever the
remainder is non-empty and fails. -/
theorem poll_three_byte_payload_fails :
    from_slice (ID ++ [0x00, 0x20] ++ [0x00, 0x0E] ++ [0x01, 0x02, 0x00]) =
      PResult.fail ArtError.ParserError := by
  exact rfl

/-- Claim C3 (amended): after flags and min-diagnostic-priority, the Poll
parser reads the two big-endian bounds iff at least ONE byte remains: with
no remaining bytes the range defaults to 0..=65535 and parsing succeeds;
with 1-3 remaining bytes parsing fails; with at least 4 remaining bytes
both bounds (top, then bottom) are read and parsing succeeds. -/
theorem parse_poll_cases (flags mdp : Nat) (rest : List Nat) :
    (rest = [] →
        parse_poll (flags :: mdp :: rest) =
          PResult.ok (Poll.mk flags mdp 0 65535)) ∧
      (1 ≤ rest.length → rest.length ≤ 3 →
        parse_poll (flags :: mdp :: rest) =
          PResult.fail ArtError.ParserError) ∧
      (4 ≤ rest.length →
        parse_poll (flags :: mdp :: rest) =
          PResult.ok (Poll.mk flags mdp
            (256 * rest.getD 0 0 + rest.getD 1 0)
            (256 * rest.getD 2 0 + rest.getD 3 0))) := by
  refine ⟨?_, ?_, ?_⟩
  · rintro rfl
    rfl
  · intro h1 h3
    match rest with
    | [] => simp at h1
    | [a] => rfl
    | [a, b] => rfl
    | [a, b, c] => rfl
    | a :: b :: c :: d :: t => simp at h3
  · intro h4
    match rest with
    | [] => simp at h4
    | [a] => simp at h4
    | [a, b] => simp at h4
    | [a, b, c] => simp at h4
    | a :: b :: c :: d :: t => rfl

theorem parse_poll_cases_witness :
    parse_poll [1, 2] = PResult.ok (Poll.mk 1 2 0 65535) ∧
      parse_poll [1, 2, 9] = PResult.fail ArtError.ParserError ∧
      parse_poll [1, 2, 0, 3, 0, 4] = PResult.ok (Poll.mk 1 2 3 4) := by
  refine ⟨(parse_poll_cases 1 2 []).1 rfl,
          (parse_poll_cases 1 2 [9]).2.1 (by decide) (by decide), ?_⟩
  rw [(parse_poll_cases 1 2 [0, 3, 0, 4]).2.2 (by decide)]
  decide

/-- Claim C4: for target width N in {18, 64} and any input, the padded
string is exactly the first `min len (N-1)` input bytes followed by NUL
padding, has length exactly N, and every byte from position
`min len (N-1)` up to N (in particular the last byte) is zero; the
operation cannot fail for any input, including the empty one. -/
theorem put_padded_str_spec (N : Nat) (input : List Nat)
    (_hN : N = 18 ∨ N = 64) :
    (put_padded_str N input).length = N ∧
      put_padded_str N input =
        input.take (min input.length (N - 1)) ++
          List.replicate (N - min input.length (N - 1)) 0 ∧
      ∀ i, min input.length (N - 1) ≤ i → i < N →
        (put_padded_str N input).getD i 0 = 0 := by
  refine ⟨put_padded_str_length N input, put_padded_str_eq N input, ?_⟩
  intro i hlo hhi
  rw [put_padded_str_eq]
  rw [List.getD_append_right _ _ _ _ (by rw [List.length_take]; omega)]
  exact getD_replicate_zero _ _

theorem put_padded_str_spec_witness :
    ((18 : Nat) = 18 ∨ (18 : Nat) = 64) ∧
      (put_padded_str 18 [1, 2, 3]).length = 18 ∧
      (put_padded_str 18 [1, 2, 3]).getD 17 0 = 0 := by
  refine ⟨Or.inl rfl, ?_, ?_⟩
  · exact (put_padded_str_spec 18 [1, 2, 3] (Or.inl rfl)).1
  · exact (put_padded_str_spec 18 [1, 2, 3] (Or.inl rfl)).2.2 17
      (by decide) (by decide)

/-- Claim C5: any input with the exact magic tag, any 2-byte opcode, and a
big-endian protocol version greater than 14 is rejected with
UnsupportedProtocolVersion carrying that version, for every opcode value
(the check precedes opcode routing). -/
theorem version_ceiling_checked_first (b1 b2 b3 b4 : Nat) (rest : List Nat)
    (h : 14 < 256 * b3 + b4) :
    from_slice (ID ++ b1 :: b2 :: b3 :: b4 :: rest) =
      PResult.fail (ArtError.UnsupportedProtocolVersion (256 * b3 + b4)) := by
  simp [from_slice, takeTag_append, le_u16, be_u16, h]

theorem version_ceiling_checked_first_witness :
    (14 : Nat) < 256 * 0 + 15 ∧
      from_slice (ID ++ 0 :: 0 :: 0 :: 15 :: []) =
        PResult.fail (ArtError.UnsupportedProtocolVersion 15) := by
  refine ⟨by decide, ?_⟩
  rw [version_ceiling_checked_first 0 0 0 15 [] (by decide)]

/-- Claim C6: with a valid envelope (magic tag, version at most 14), any
little-endian opcode outside {0x2000, 0x2400, 0x5000, 0x5200} is rejected
with UnsupportedOpCode carrying that opcode value. -/
theorem unknown_opcode_rejected (b1 b2 b3 b4 : Nat) (rest : List Nat)
    (hv : 256 * b3 + b4 ≤ 14)
    (o1 : b1 + 256 * b2 ≠ 0x2000) (o2 : b1 + 256 * b2 ≠ 0x2400)
    (o3 : b1 + 256 * b2 ≠ 0x5000) (o4 : b1 + 256 * b2 ≠ 0x5200) :
    from_slice (ID ++ b1 :: b2 :: b3 :: b4 :: rest) =
      PResult.fail (ArtError.UnsupportedOpCode (b1 + 256 * b2)) := by
  simp only [from_slice, takeTag_append, le_u16, be_u16]
  rw [if_neg (by omega), if_neg o1, if_neg o2, if_neg o3, if_neg o4]

theorem unknown_opcode_rejected_witness :
    (256 * 0 + 14 : Nat) ≤ 14 ∧
      from_slice (ID ++ 255 :: 255 :: 0 :: 14 :: []) =
        PResult.fail (ArtError.UnsupportedOpCode 0xFFFF) := by
  refine ⟨by decide, ?_⟩
  rw [unknown_opcode_rejected 255 255 0 14 [] (by decide) (by decide)
    (by decide) (by decide) (by decide)]

/-- Claim C7: any input shorter than 8 bytes, or not starting with the
exact 8-byte magic preamble "Art-Net" followed by NUL, decodes to a parse
failure (the ParserError variant), never a message and never another
error variant. -/
theorem bad_magic_parse_failure (s : List Nat)
    (h : s.length < 8 ∨ s.take 8 ≠ ID) :
    from_slice s = PResult.fail ArtError.ParserError := by
  have hn : takeTag ID s = none := by
    rw [takeTag_eq_none_iff]
    rcases h with h | h
    · intro he
      have hlen := congrArg List.length he
      rw [List.length_take] at hlen
      simp [ID] at hlen
      omega
    · exact h
  simp [from_slice, hn]

theorem bad_magic_parse_failure_witness :
    ([1, 2, 3] : List Nat).length < 8 ∧
      from_slice [1, 2, 3] = PResult.fail ArtError.ParserError := by
  exact ⟨by decide, bad_magic_parse_failure [1, 2, 3] (Or.inl (by decide))⟩

/-- Claim C10: whenever both net and sub_net are at most 127 the
`as_index` method returns exactly the universe field (net and sub_net are
right-shifted into oblivion before being added); moreover every
PortAddress produced by the parser satisfies net at most 127 and sub_net
at most 15. -/
theorem as_index_eq_universe :
    (∀ pa : PortAddress, pa.net ≤ 127 → pa.sub_net ≤ 127 →
        PortAddress.as_index pa = pa.«universe») ∧
      (∀ (s : List Nat) (pr : List Nat × PortAddress),
        parse_port_address s = some pr →
          pr.2.net ≤ 127 ∧ pr.2.sub_net ≤ 15) := by
  constructor
  · intro pa h1 h2
    rw [PortAddress.as_index, Nat.shiftRight_eq_div_pow,
      Nat.shiftRight_eq_div_pow]
    have e1 : pa.net / 2 ^ 14 = 0 := Nat.div_eq_of_lt (by omega)
    have e2 : pa.sub_net / 2 ^ 7 = 0 := Nat.div_eq_of_lt (by omega)
    rw [e1, e2]
    omega
  · intro s pr h
    match s with
    | [] => simp [parse_port_address] at h
    | [b0] => simp [parse_port_address] at h
    | b0 :: b1 :: rest =>
      simp only [parse_port_address, Option.some.injEq] at h
      subst h
      refine ⟨?_, ?_⟩
      · show b1 % 128 ≤ 127
        omega
      · show b0 / 16 % 16 ≤ 15
        omega

theorem as_index_eq_universe_witness :
    PortAddress.as_index (PortAddress.mk 18 3 4) = 4 ∧
      ((18 : Nat) ≤ 127 ∧ (3 : Nat) ≤ 15) := by
  exact ⟨as_index_eq_universe.1 (PortAddress.mk 18 3 4) (by decide) (by decide),
    as_index_eq_universe.2 [0x34, 0x12] ([], PortAddress.mk 18 3 4) (by decide)⟩

/-- Sequencing `put_slice` calls appends every segment when the total
length fits in the remaining capacity. -/
theorem putAll (segs : List (List Nat)) (w : List Nat) (cap : Nat)
    (h : segs.flatten.length ≤ cap) :
    List.foldlM putSlice (WBuf.mk w cap) segs =
      some (WBuf.mk (w ++ segs.flatten) (cap - segs.flatten.length)) := by
  induction segs generalizing w cap with
  | nil => simp [List.foldlM_nil]
  | cons seg rest ih =>
    rw [List.flatten_cons, List.length_append] at h
    have h1 : seg.length ≤ cap := by omega
    rw [List.foldlM_cons]
    have hput : putSlice (WBuf.mk w cap) seg =
        some (WBuf.mk (w ++ seg) (cap - seg.length)) := by
      simp [putSlice, h1]
    rw [hput]
    show List.foldlM putSlice (WBuf.mk (w ++ seg) (cap - seg.length)) rest = _
    rw [ih (w ++ seg) (cap - seg.length) (by omega)]
    rw [List.flatten_cons, List.length_append]
    simp only [Option.some.injEq, WBuf.mk.injEq]
    constructor
    · rw [List.append_assoc]
    · omega

/-- The serialized PollReply is always exactly 239 bytes, given the
fixed-size array fields of the record. -/
theorem serializeBytes_length (r : PollReply)
    (h_ip : r.ip_address.length = 4)
    (hpt : r.port_types.length = 4) (hgi : r.good_input.length = 4)
    (hga : r.good_output_a.length = 4) (hsi : r.swin.length = 4)
    (hso : r.swout.length = 4) (hmac : r.mac_address.length = 6)
    (hbip : r.bind_ip_address.length = 4) (hgb : r.good_output_b.length = 4)
    (huid : r.default_responder_uid.length = 6) :
    (PollReply.serializeBytes r).length = 239 := by
  simp [PollReply.serializeBytes, PollReply.segments, u16LEBytes, u16BEBytes,
    put_padded_str_length, h_ip, hpt, hgi, hga, hsi, hso, hmac, hbip, hgb,
    huid, ID]

/-- Claim C9: for any PollReply record and any destination buffer of at
least 239 bytes, serialize writes the 239-byte encoding and returns the
byte count 239, regardless of the field values (in particular of the text
field lengths). -/
theorem poll_reply_serialize_len (r : PollReply)
    (h_ip : r.ip_address.length = 4)
    (hpt : r.port_types.length = 4) (hgi : r.good_input.length = 4)
    (hga : r.good_output_a.length = 4) (hsi : r.swin.length = 4)
    (hso : r.swout.length = 4) (hmac : r.mac_address.length = 6)
    (hbip : r.bind_ip_address.length = 4) (hgb : r.good_output_b.length = 4)
    (huid : r.default_responder_uid.length = 6)
    (bufLen : Nat) (hb : 239 ≤ bufLen) :
    PollReply.serialize r bufLen = some (PollReply.serializeBytes r, 239) := by
  have hlen : (PollReply.segments r).flatten.length = 239 :=
    serializeBytes_length r h_ip hpt hgi hga hsi hso hmac hbip hgb huid
  rw [PollReply.serialize, putAll (PollReply.segments r) [] bufLen (by omega)]
  simp only [List.nil_append, Option.some.injEq, Prod.mk.injEq]
  constructor
  · rfl
  · omega

theorem poll_reply_serialize_len_witness :
    (239 : Nat) ≤ 1024 ∧
      PollReply.serialize pr0 1024 = some (PollReply.serializeBytes pr0, 239) := by
  exact ⟨by decide, poll_reply_serialize_len pr0 rfl rfl rfl rfl rfl rfl rfl
    rfl rfl rfl 1024 (by decide)⟩

/-- Claim C8: re-reading every fixed-width field of a serialized
PollReply at its fixed offset yields back the original field value
(the padded/truncated form for the three text fields): magic tag at
0..8, little-endian opcode 0x2100 at 8..10, IP at 10..14, little-endian
port at 14..16, big-endian firmware version at 16..18, and so on
through the whole fixed field order up to the 15 zero filler bytes at
224..239. -/
theorem poll_reply_field_offsets (r : PollReply)
    (h_ip : r.ip_address.length = 4)
    (hpt : r.port_types.length = 4) (hgi : r.good_input.length = 4)
    (hga : r.good_output_a.length = 4) (hsi : r.swin.length = 4)
    (hso : r.swout.length = 4) (hmac : r.mac_address.length = 6)
    (hbip : r.bind_ip_address.length = 4) (hgb : r.good_output_b.length = 4)
    (huid : r.default_responder_uid.length = 6)
    (hport : r.port < 65536) (hfw : r.firmware_version < 65536)
    (hoem : r.oem < 65536) (hnp : r.num_ports < 65536) :
    slice (PollReply.serializeBytes r) 0 8 = ID ∧
      readLE16 (PollReply.serializeBytes r) 8 = 0x2100 ∧
      slice (PollReply.serializeBytes r) 10 4 = r.ip_address ∧
      readLE16 (PollReply.serializeBytes r) 14 = r.port ∧
      readBE16 (PollReply.serializeBytes r) 16 = r.firmware_version ∧
      readU8 (PollReply.serializeBytes r) 18 = r.net_switch ∧
      readU8 (PollReply.serializeBytes r) 19 = r.sub_switch ∧
      readBE16 (PollReply.serializeBytes r) 20 = r.oem ∧
      readU8 (PollReply.serializeBytes r) 22 = r.ubea_version ∧
      readU8 (PollReply.serializeBytes r) 23 = r.status1 ∧
      readU8 (PollReply.serializeBytes r) 24 = r.esta_lo ∧
      readU8 (PollReply.serializeBytes r) 25 = r.esta_hi ∧
      slice (PollReply.serializeBytes r) 26 18 = put_padded_str 18 r.short_name ∧
      slice (PollReply.serializeBytes r) 44 64 = put_padded_str 64 r.long_name ∧
      slice (PollReply.serializeBytes r) 108 64 = put_padded_str 64 r.node_report ∧
      readBE16 (PollReply.serializeBytes r) 172 = r.num_ports ∧
      slice (PollReply.serializeBytes r) 174 4 = r.port_types ∧
      slice (PollReply.serializeBytes r) 178 4 = r.good_input ∧
      slice (PollReply.serializeBytes r) 182 4 = r.good_output_a ∧
      slice (PollReply.serializeBytes r) 186 4 = r.swin ∧
      slice (PollReply.serializeBytes r) 190 4 = r.swout ∧
      readU8 (PollReply.serializeBytes r) 194 = r.acn_priority ∧
      readU8 (PollReply.serializeBytes r) 195 = r.sw_m ∧
      readU8 (PollReply.serializeBytes r) 196 = r.sw_r ∧
      slice (PollReply.serializeBytes r) 197 3 = List.replicate 3 0 ∧
      readU8 (PollReply.serializeBytes r) 200 = r.style ∧
      slice (PollReply.serializeBytes r) 201 6 = r.mac_address ∧
      slice (PollReply.serializeBytes r) 207 4 = r.bind_ip_address ∧
      readU8 (PollReply.serializeBytes r) 211 = r.bind_index ∧
      readU8 (PollReply.serializeBytes r) 212 = r.status2 ∧
      slice (PollReply.serializeBytes r) 213 4 = r.good_output_b ∧
      readU8 (PollReply.serializeBytes r) 217 = r.status3 ∧
      slice (PollReply.serializeBytes r) 218 6 = r.default_responder_uid ∧
      slice (PollReply.serializeBytes r) 224 15 = List.replicate 15 0 := by
  have e0 : (PollReply.serializeBytes r).drop 0 = ID ++ (u16LEBytes OP_POLL_REPLY ++ (r.ip_address ++ (u16LEBytes r.port ++ (u16BEBytes r.firmware_version ++ ([r.net_switch] ++ ([r.sub_switch] ++ (u16BEBytes r.oem ++ ([r.ubea_version] ++ ([r.status1] ++ ([r.esta_lo] ++ ([r.esta_hi] ++ (put_padded_str 18 r.short_name ++ (put_padded_str 64 r.long_name ++ (put_padded_str 64 r.node_report ++ (u16BEBytes r.num_ports ++ (r.port_types ++ (r.good_input ++ (r.good_output_a ++ (r.swin ++ (r.swout ++ ([r.acn_priority] ++ ([r.sw_m] ++ ([r.sw_r] ++ (List.replicate 3 0 ++ ([r.style] ++ (r.mac_address ++ (r.bind_ip_address ++ ([r.bind_index] ++ ([r.status2] ++ (r.good_output_b ++ ([r.status3] ++ (r.default_responder_uid ++ (List.replicate 15 0))))))))))))))))))))))))))))))))) := by
    rw [List.drop_zero]
    simp only [PollReply.serializeBytes, PollReply.segments,
      List.flatten_cons, List.flatten_nil, List.append_nil]
  have e8 : (PollReply.serializeBytes r).drop 8 = u16LEBytes OP_POLL_REPLY ++ (r.ip_address ++ (u16LEBytes r.port ++ (u16BEBytes r.firmware_version ++ ([r.net_switch] ++ ([r.sub_switch] ++ (u16BEBytes r.oem ++ ([r.ubea_version] ++ ([r.status1] ++ ([r.esta_lo] ++ ([r.esta_hi] ++ (put_padded_str 18 r.short_name ++ (put_padded_str 64 r.long_name ++ (put_padded_str 64 r.node_report ++ (u16BEBytes r.num_ports ++ (r.port_types ++ (r.good_input ++ (r.good_output_a ++ (r.swin ++ (r.swout ++ ([r.acn_priority] ++ ([r.sw_m] ++ ([r.sw_r] ++ (List.replicate 3 0 ++ ([r.style] ++ (r.mac_address ++ (r.bind_ip_address ++ ([r.bind_index] ++ ([r.status2] ++ (r.good_output_b ++ ([r.status3] ++ (r.default_responder_uid ++ (List.replicate 15 0)))))))))))))))))))))))))))))))) :=
    drop_step e0 (len_ID)
  have e10 : (PollReply.serializeBytes r).drop 10 = r.ip_address ++ (u16LEBytes r.port ++ (u16BEBytes r.firmware_version ++ ([r.net_switch] ++ ([r.sub_switch] ++ (u16BEBytes r.oem ++ ([r.ubea_version] ++ ([r.status1] ++ ([r.esta_lo] ++ ([r.esta_hi] ++ (put_padded_str 18 r.short_name ++ (put_padded_str 64 r.long_name ++ (put_padded_str 64 r.node_report ++ (u16BEBytes r.num_ports ++ (r.port_types ++ (r.good_input ++ (r.good_output_a ++ (r.swin ++ (r.swout ++ ([r.acn_priority] ++ ([r.sw_m] ++ ([r.sw_r] ++ (List.replicate 3 0 ++ ([r.style] ++ (r.mac_address ++ (r.bind_ip_address ++ ([r.bind_index] ++ ([r.status2] ++ (r.good_output_b ++ ([r.status3] ++ (r.default_responder_uid ++ (List.replicate 15 0))))))))))))))))))))))))))))))) :=
    drop_step e8 (len_u16LE OP_POLL_REPLY)
  have e14 : (PollReply.serializeBytes r).drop 14 = u16LEBytes r.port ++ (u16BEBytes r.firmware_version ++ ([r.net_switch] ++ ([r.sub_switch] ++ (u16BEBytes r.oem ++ ([r.ubea_version] ++ ([r.status1] ++ ([r.esta_lo] ++ ([r.esta_hi] ++ (put_padded_str 18 r.short_name ++ (put_padded_str 64 r.long_name ++ (put_padded_str 64 r.node_report ++ (u16BEBytes r.num_ports ++ (r.port_types ++ (r.good_input ++ (r.good_output_a ++ (r.swin ++ (r.swout ++ ([r.acn_priority] ++ ([r.sw_m] ++ ([r.sw_r] ++ (List.replicate 3 0 ++ ([r.style] ++ (r.mac_address ++ (r.bind_ip_address ++ ([r.bind_index] ++ ([r.status2] ++ (r.good_output_b ++ ([r.status3] ++ (r.default_responder_uid ++ (List.replicate 15 0)))))))))))))))))))))))))))))) :=
    drop_step e10 (h_ip)
  have e16 : (PollReply.serializeBytes r).drop 16 = u16BEBytes r.firmware_version ++ ([r.net_switch] ++ ([r.sub_switch] ++ (u16BEBytes r.oem ++ ([r.ubea_version] ++ ([r.status1] ++ ([r.esta_lo] ++ ([r.esta_hi] ++ (put_padded_str 18 r.short_name ++ (put_padded_str 64 r.long_name ++ (put_padded_str 64 r.node_report ++ (u16BEBytes r.num_ports ++ (r.port_types ++ (r.good_input ++ (r.good_output_a ++ (r.swin ++ (r.swout ++ ([r.acn_priority] ++ ([r.sw_m] ++ ([r.sw_r] ++ (List.replicate 3 0 ++ ([r.style] ++ (r.mac_address ++ (r.bind_ip_address ++ ([r.bind_index] ++ ([r.status2] ++ (r.good_output_b ++ ([r.status3] ++ (r.default_responder_uid ++ (List.replicate 15 0))))))))))))))))))))))))))))) :=
    drop_step e14 (len_u16LE r.port)
  have e18 : (PollReply.serializeBytes r).drop 18 = [r.net_switch] ++ ([r.sub_switch] ++ (u16BEBytes r.oem ++ ([r.ubea_version] ++ ([r.status1] ++ ([r.esta_lo] ++ ([r.esta_hi] ++ (put_padded_str 18 r.short_name ++ (put_padded_str 64 r.long_name ++ (put_padded_str 64 r.node_report ++ (u16BEBytes r.num_ports ++ (r.port_types ++ (r.good_input ++ (r.good_output_a ++ (r.swin ++ (r.swout ++ ([r.acn_priority] ++ ([r.sw_m] ++ ([r.sw_r] ++ (List.replicate 3 0 ++ ([r.style] ++ (r.mac_address ++ (r.bind_ip_address ++ ([r.bind_index] ++ ([r.status2] ++ (r.good_output_b ++ ([r.status3] ++ (r.default_responder_uid ++ (List.replicate 15 0)))))))))))))))))))))))))))) :=
    drop_step e16 (len_u16BE r.firmware_version)
  have e19 : (PollReply.serializeBytes r).drop 19 = [r.sub_switch] ++ (u16BEBytes r.oem ++ ([r.ubea_version] ++ ([r.status1] ++ ([r.esta_lo] ++ ([r.esta_hi] ++ (put_padded_str 18 r.short_name ++ (put_padded_str 64 r.long_name ++ (put_padded_str 64 r.node_report ++ (u16BEBytes r.num_ports ++ (r.port_types ++ (r.good_input ++ (r.good_output_a ++ (r.swin ++ (r.swout ++ ([r.acn_priority] ++ ([r.sw_m] ++ ([r.sw_r] ++ (List.replicate 3 0 ++ ([r.style] ++ (r.mac_address ++ (r.bind_ip_address ++ ([r.bind_index] ++ ([r.status2] ++ (r.good_output_b ++ ([r.status3] ++ (r.default_responder_uid ++ (List.replicate 15 0))))))))))))))))))))))))))) :=
    drop_step e18 (len_single r.net_switch)
  have e20 : (PollReply.serializeBytes r).drop 20 = u16BEBytes r.oem ++ ([r.ubea_version] ++ ([r.status1] ++ ([r.esta_lo] ++ ([r.esta_hi] ++ (put_padded_str 18 r.short_name ++ (put_padded_str 64 r.long_name ++ (put_padded_str 64 r.node_report ++ (u16BEBytes r.num_ports ++ (r.port_types ++ (r.good_input ++ (r.good_output_a ++ (r.swin ++ (r.swout ++ ([r.acn_priority] ++ ([r.sw_m] ++ ([r.sw_r] ++ (List.replicate 3 0 ++ ([r.style] ++ (r.mac_address ++ (r.bind_ip_address ++ ([r.bind_index] ++ ([r.status2] ++ (r.good_output_b ++ ([r.status3] ++ (r.default_responder_uid ++ (List.replicate 15 0)))))))))))))))))))))))))) :=
    drop_step e19 (len_single r.sub_switch)
  have e22 : (PollReply.serializeBytes r).drop 22 = [r.ubea_version] ++ ([r.status1] ++ ([r.esta_lo] ++ ([r.esta_hi] ++ (put_padded_str 18 r.short_name ++ (put_padded_str 64 r.long_name ++ (put_padded_str 64 r.node_report ++ (u16BEBytes r.num_ports ++ (r.port_types ++ (r.good_input ++ (r.good_output_a ++ (r.swin ++ (r.swout ++ ([r.acn_priority] ++ ([r.sw_m] ++ ([r.sw_r] ++ (List.replicate 3 0 ++ ([r.style] ++ (r.mac_address ++ (r.bind_ip_address ++ ([r.bind_index] ++ ([r.status2] ++ (r.good_output_b ++ ([r.status3] ++ (r.default_responder_uid ++ (List.replicate 15 0))))))))))))))))))))))))) :=
    drop_step e20 (len_u16BE r.oem)
  have e23 : (PollReply.serializeBytes r).drop 23 = [r.status1] ++ ([r.esta_lo] ++ ([r.esta_hi] ++ (put_padded_str 18 r.short_name ++ (put_padded_str 64 r.long_name ++ (put_padded_str 64 r.node_report ++ (u16BEBytes r.num_ports ++ (r.port_types ++ (r.good_input ++ (r.good_output_a ++ (r.swin ++ (r.swout ++ ([r.acn_priority] ++ ([r.sw_m] ++ ([r.sw_r] ++ (List.replicate 3 0 ++ ([r.style] ++ (r.mac_address ++ (r.bind_ip_address ++ ([r.bind_index] ++ ([r.status2] ++ (r.good_output_b ++ ([r.status3] ++ (r.default_responder_uid ++ (List.replicate 15 0)))))))))))))))))))))))) :=
    drop_step e22 (len_single r.ubea_version)
  have e24 : (PollReply.serializeBytes r).drop 24 = [r.esta_lo] ++ ([r.esta_hi] ++ (put_padded_str 18 r.short_name ++ (put_padded_str 64 r.long_name ++ (put_padded_str 64 r.node_report ++ (u16BEBytes r.num_ports ++ (r.port_types ++ (r.good_input ++ (r.good_output_a ++ (r.swin ++ (r.swout ++ ([r.acn_priority] ++ ([r.sw_m] ++ ([r.sw_r] ++ (List.replicate 3 0 ++ ([r.style] ++ (r.mac_address ++ (r.bind_ip_address ++ ([r.bind_index] ++ ([r.status2] ++ (r.good_output_b ++ ([r.status3] ++ (r.default_responder_uid ++ (List.replicate 15 0))))))))))))))))))))))) :=
    drop_step e23 (len_single r.status1)
  have e25 : (PollReply.serializeBytes r).drop 25 = [r.esta_hi] ++ (put_padded_str 18 r.short_name ++ (put_padded_str 64 r.long_name ++ (put_padded_str 64 r.node_report ++ (u16BEBytes r.num_ports ++ (r.port_types ++ (r.good_input ++ (r.good_output_a ++ (r.swin ++ (r.swout ++ ([r.acn_priority] ++ ([r.sw_m] ++ ([r.sw_r] ++ (List.replicate 3 0 ++ ([r.style] ++ (r.mac_address ++ (r.bind_ip_address ++ ([r.bind_index] ++ ([r.status2] ++ (r.good_output_b ++ ([r.status3] ++ (r.default_responder_uid ++ (List.replicate 15 0)))))))))))))))))))))) :=
    drop_step e24 (len_single r.esta_lo)
  have e26 : (PollReply.serializeBytes r).drop 26 = put_padded_str 18 r.short_name ++ (put_padded_str 64 r.long_name ++ (put_padded_str 64 r.node_report ++ (u16BEBytes r.num_ports ++ (r.port_types ++ (r.good_input ++ (r.good_output_a ++ (r.swin ++ (r.swout ++ ([r.acn_priority] ++ ([r.sw_m] ++ ([r.sw_r] ++ (List.replicate 3 0 ++ ([r.style] ++ (r.mac_address ++ (r.bind_ip_address ++ ([r.bind_index] ++ ([r.status2] ++ (r.good_output_b ++ ([r.status3] ++ (r.default_responder_uid ++ (List.replicate 15 0))))))))))))))))))))) :=
    drop_step e25 (len_single r.esta_hi)
  have e44 : (PollReply.serializeBytes r).drop 44 = put_padded_str 64 r.long_name ++ (put_padded_str 64 r.node_report ++ (u16BEBytes r.num_ports ++ (r.port_types ++ (r.good_input ++ (r.good_output_a ++ (r.swin ++ (r.swout ++ ([r.acn_priority] ++ ([r.sw_m] ++ ([r.sw_r] ++ (List.replicate 3 0 ++ ([r.style] ++ (r.mac_address ++ (r.bind_ip_address ++ ([r.bind_index] ++ ([r.status2] ++ (r.good_output_b ++ ([r.status3] ++ (r.default_responder_uid ++ (List.replicate 15 0)))))))))))))))))))) :=
    drop_step e26 (put_padded_str_length 18 r.short_name)
  have e108 : (PollReply.serializeBytes r).drop 108 = put_padded_str 64 r.node_report ++ (u16BEBytes r.num_ports ++ (r.port_types ++ (r.good_input ++ (r.good_output_a ++ (r.swin ++ (r.swout ++ ([r.acn_priority] ++ ([r.sw_m] ++ ([r.sw_r] ++ (List.replicate 3 0 ++ ([r.style] ++ (r.mac_address ++ (r.bind_ip_address ++ ([r.bind_index] ++ ([r.status2] ++ (r.good_output_b ++ ([r.status3] ++ (r.default_responder_uid ++ (List.replicate 15 0))))))))))))))))))) :=
    drop_step e44 (put_padded_str_length 64 r.long_name)
  have e172 : (PollReply.serializeBytes r).drop 172 = u16BEBytes r.num_ports ++ (r.port_types ++ (r.good_input ++ (r.good_output_a ++ (r.swin ++ (r.swout ++ ([r.acn_priority] ++ ([r.sw_m] ++ ([r.sw_r] ++ (List.replicate 3 0 ++ ([r.style] ++ (r.mac_address ++ (r.bind_ip_address ++ ([r.bind_index] ++ ([r.status2] ++ (r.good_output_b ++ ([r.status3] ++ (r.default_responder_uid ++ (List.replicate 15 0)))))))))))))))))) :=
    drop_step e108 (put_padded_str_length 64 r.node_report)
  have e174 : (PollReply.serializeBytes r).drop 174 = r.port_types ++ (r.good_input ++ (r.good_output_a ++ (r.swin ++ (r.swout ++ ([r.acn_priority] ++ ([r.sw_m] ++ ([r.sw_r] ++ (List.replicate 3 0 ++ ([r.style] ++ (r.mac_address ++ (r.bind_ip_address ++ ([r.bind_index] ++ ([r.status2] ++ (r.good_output_b ++ ([r.status3] ++ (r.default_responder_uid ++ (List.replicate 15 0))))))))))))))))) :=
    drop_step e172 (len_u16BE r.num_ports)
  have e178 : (PollReply.serializeBytes r).drop 178 = r.good_input ++ (r.good_output_a ++ (r.swin ++ (r.swout ++ ([r.acn_priority] ++ ([r.sw_m] ++ ([r.sw_r] ++ (List.replicate 3 0 ++ ([r.style] ++ (r.mac_address ++ (r.bind_ip_address ++ ([r.bind_index] ++ ([r.status2] ++ (r.good_output_b ++ ([r.status3] ++ (r.default_responder_uid ++ (List.replicate 15 0)))))))))))))))) :=
    drop_step e174 (hpt)
  have e182 : (PollReply.serializeBytes r).drop 182 = r.good_output_a ++ (r.swin ++ (r.swout ++ ([r.acn_priority] ++ ([r.sw_m] ++ ([r.sw_r] ++ (List.replicate 3 0 ++ ([r.style] ++ (r.mac_address ++ (r.bind_ip_address ++ ([r.bind_index] ++ ([r.status2] ++ (r.good_output_b ++ ([r.status3] ++ (r.default_responder_uid ++ (List.replicate 15 0))))))))))))))) :=
    drop_step e178 (hgi)
  have e186 : (PollReply.serializeBytes r).drop 186 = r.swin ++ (r.swout ++ ([r.acn_priority] ++ ([r.sw_m] ++ ([r.sw_r] ++ (List.replicate 3 0 ++ ([r.style] ++ (r.mac_address ++ (r.bind_ip_address ++ ([r.bind_index] ++ ([r.status2] ++ (r.good_output_b ++ ([r.status3] ++ (r.default_responder_uid ++ (List.replicate 15 0)))))))))))))) :=
    drop_step e182 (hga)
  have e190 : (PollReply.serializeBytes r).drop 190 = r.swout ++ ([r.acn_priority] ++ ([r.sw_m] ++ ([r.sw_r] ++ (List.replicate 3 0 ++ ([r.style] ++ (r.mac_address ++ (r.bind_ip_address ++ ([r.bind_index] ++ ([r.status2] ++ (r.good_output_b ++ ([r.status3] ++ (r.default_responder_uid ++ (List.replicate 15 0))))))))))))) :=
    drop_step e186 (hsi)
  have e194 : (PollReply.serializeBytes r).drop 194 = [r.acn_priority] ++ ([r.sw_m] ++ ([r.sw_r] ++ (List.replicate 3 0 ++ ([r.style] ++ (r.mac_address ++ (r.bind_ip_address ++ ([r.bind_index] ++ ([r.status2] ++ (r.good_output_b ++ ([r.status3] ++ (r.default_responder_uid ++ (List.replicate 15 0)))))))))))) :=
    drop_step e190 (hso)
  have e195 : (PollReply.serializeBytes r).drop 195 = [r.sw_m] ++ ([r.sw_r] ++ (List.replicate 3 0 ++ ([r.style] ++ (r.mac_address ++ (r.bind_ip_address ++ ([r.bind_index] ++ ([r.status2] ++ (r.good_output_b ++ ([r.status3] ++ (r.default_responder_uid ++ (List.replicate 15 0))))))))))) :=
    drop_step e194 (len_single r.acn_priority)
  have e196 : (PollReply.serializeBytes r).drop 196 = [r.sw_r] ++ (List.replicate 3 0 ++ ([r.style] ++ (r.mac_address ++ (r.bind_ip_address ++ ([r.bind_index] ++ ([r.status2] ++ (r.good_output_b ++ ([r.status3] ++ (r.default_responder_uid ++ (List.replicate 15 0)))))))))) :=
    drop_step e195 (len_single r.sw_m)
  have e197 : (PollReply.serializeBytes r).drop 197 = List.replicate 3 0 ++ ([r.style] ++ (r.mac_address ++ (r.bind_ip_address ++ ([r.bind_index] ++ ([r.status2] ++ (r.good_output_b ++ ([r.status3] ++ (r.default_responder_uid ++ (List.replicate 15 0))))))))) :=
    drop_step e196 (len_single r.sw_r)
  have e200 : (PollReply.serializeBytes r).drop 200 = [r.style] ++ (r.mac_address ++ (r.bind_ip_address ++ ([r.bind_index] ++ ([r.status2] ++ (r.good_output_b ++ ([r.status3] ++ (r.default_responder_uid ++ (List.replicate 15 0)))))))) :=
    drop_step e197 (len_rep3)
  have e201 : (PollReply.serializeBytes r).drop 201 = r.mac_address ++ (r.bind_ip_address ++ ([r.bind_index] ++ ([r.status2] ++ (r.good_output_b ++ ([r.status3] ++ (r.default_responder_uid ++ (List.replicate 15 0))))))) :=
    drop_step e200 (len_single r.style)
  have e207 : (PollReply.serializeBytes r).drop 207 = r.bind_ip_address ++ ([r.bind_index] ++ ([r.status2] ++ (r.good_output_b ++ ([r.status3] ++ (r.default_responder_uid ++ (List.replicate 15 0)))))) :=
    drop_step e201 (hmac)
  have e211 : (PollReply.serializeBytes r).drop 211 = [r.bind_index] ++ ([r.status2] ++ (r.good_output_b ++ ([r.status3] ++ (r.default_responder_uid ++ (List.replicate 15 0))))) :=
    drop_step e207 (hbip)
  have e212 : (PollReply.serializeBytes r).drop 212 = [r.status2] ++ (r.good_output_b ++ ([r.status3] ++ (r.default_responder_uid ++ (List.replicate 15 0)))) :=
    drop_step e211 (len_single r.bind_index)
  have e213 : (PollReply.serializeBytes r).drop 213 = r.good_output_b ++ ([r.status3] ++ (r.default_responder_uid ++ (List.replicate 15 0))) :=
    drop_step e212 (len_single r.status2)
  have e217 : (PollReply.serializeBytes r).drop 217 = [r.status3] ++ (r.default_responder_uid ++ (List.replicate 15 0)) :=
    drop_step e213 (hgb)
  have e218 : (PollReply.serializeBytes r).drop 218 = r.default_responder_uid ++ (List.replicate 15 0) :=
    drop_step e217 (len_single r.status3)
  have e224 : (PollReply.serializeBytes r).drop 224 = List.replicate 15 0 :=
    drop_step e218 (huid)
  exact ⟨slice_get e0 (len_ID),
    readLE16_get e8 (by decide),
    slice_get e10 (h_ip),
    readLE16_get e14 hport,
    readBE16_get e16 hfw,
    readU8_get e18,
    readU8_get e19,
    readBE16_get e20 hoem,
    readU8_get e22,
    readU8_get e23,
    readU8_get e24,
    readU8_get e25,
    slice_get e26 (put_padded_str_length 18 r.short_name),
    slice_get e44 (put_padded_str_length 64 r.long_name),
    slice_get e108 (put_padded_str_length 64 r.node_report),
    readBE16_get e172 hnp,
    slice_get e174 (hpt),
    slice_get e178 (hgi),
    slice_get e182 (hga),
    slice_get e186 (hsi),
    slice_get e190 (hso),
    readU8_get e194,
    readU8_get e195,
    readU8_get e196,
    slice_get e197 (len_rep3),
    readU8_get e200,
    slice_get e201 (hmac),
    slice_get e207 (hbip),
    readU8_get e211,
    readU8_get e212,
    slice_get e213 (hgb),
    readU8_get e217,
    slice_get e218 (huid),
    by rw [slice, e224]; decide⟩

theorem poll_reply_field_offsets_witness :
    slice (PollReply.serializeBytes pr0) 0 8 = ID ∧
      readLE16 (PollReply.serializeBytes pr0) 8 = 0x2100 ∧
      slice (PollReply.serializeBytes pr0) 10 4 = pr0.ip_address ∧
      readLE16 (PollReply.serializeBytes pr0) 14 = pr0.port ∧
      readBE16 (PollReply.serializeBytes pr0) 16 = pr0.firmware_version ∧
      readU8 (PollReply.serializeBytes pr0) 18 = pr0.net_switch ∧
      readU8 (PollReply.serializeBytes pr0) 19 = pr0.sub_switch ∧
      readBE16 (PollReply.serializeBytes pr0) 20 = pr0.oem ∧
      readU8 (PollReply.serializeBytes pr0) 22 = pr0.ubea_version ∧
      readU8 (PollReply.serializeBytes pr0) 23 = pr0.status1 ∧
      readU8 (PollReply.serializeBytes pr0) 24 = pr0.esta_lo ∧
      readU8 (PollReply.serializeBytes pr0) 25 = pr0.esta_hi ∧
      slice (PollReply.serializeBytes pr0) 26 18 = put_padded_str 18 pr0.short_name ∧
      slice (PollReply.serializeBytes pr0) 44 64 = put_padded_str 64 pr0.long_name ∧
      slice (PollReply.serializeBytes pr0) 108 64 = put_padded_str 64 pr0.node_report ∧
      readBE16 (PollReply.serializeBytes pr0) 172 = pr0.num_ports ∧
      slice (PollReply.serializeBytes pr0) 174 4 = pr0.port_types ∧
      slice (PollReply.serializeBytes pr0) 178 4 = pr0.good_input ∧
      slice (PollReply.serializeBytes pr0) 182 4 = pr0.good_output_a ∧
      slice (PollReply.serializeBytes pr0) 186 4 = pr0.swin ∧
      slice (PollReply.serializeBytes pr0) 190 4 = pr0.swout ∧
      readU8 (PollReply.serializeBytes pr0) 194 = pr0.acn_priority ∧
      readU8 (PollReply.serializeBytes pr0) 195 = pr0.sw_m ∧
      readU8 (PollReply.serializeBytes pr0) 196 = pr0.sw_r ∧
      slice (PollReply.serializeBytes pr0) 197 3 = List.replicate 3 0 ∧
      readU8 (PollReply.serializeBytes pr0) 200 = pr0.style ∧
      slice (PollReply.serializeBytes pr0) 201 6 = pr0.mac_address ∧
      slice (PollReply.serializeBytes pr0) 207 4 = pr0.bind_ip_address ∧
      readU8 (PollReply.serializeBytes pr0) 211 = pr0.bind_index ∧
      readU8 (PollReply.serializeBytes pr0) 212 = pr0.status2 ∧
      slice (PollReply.serializeBytes pr0) 213 4 = pr0.good_output_b ∧
      readU8 (PollReply.serializeBytes pr0) 217 = pr0.status3 ∧
      slice (PollReply.serializeBytes pr0) 218 6 = pr0.default_responder_uid ∧
      slice (PollReply.serializeBytes pr0) 224 15 = List.replicate 15 0 := by
  exact poll_reply_field_offsets pr0 rfl rfl rfl rfl rfl rfl rfl rfl rfl
    rfl (by decide) (by decide) (by decide) (by decide)

end TinyArtnet
